import Mathlib

/-!
# Verification of the ecom-product-service core

A shallow embedding of the product-catalog microservice core
(`internal/utils/sku.go`, `internal/validator/validator.go`,
`internal/model/model.go`, the handlers in `api/api.go`), together with
proofs of the behavioural properties stated in the specification.

Modelling conventions:
* Go strings are modelled as `List Char`.
* Go `float64`/`float32` (`Price`, `Weight`) are modelled as `ℚ`; the
  properties proved only use equality with zero, ordering and sign,
  which agree with the IEEE semantics on the non-NaN values involved.
* The two SQL tables are modelled as lists of rows inside `DBState`;
  the `SERIAL` id counters are `nextId`/`nextImageId` (Postgres SERIAL
  starts at 1).
* Each mutating store operation runs inside a transaction.  I/O
  failures of the individual SQL statements are injected through an
  oracle `o : Nat → Bool` (step `k` of the operation fails iff `o k`);
  a failure before commit makes the operation return the *original*
  database state, which is exactly what `defer tx.Rollback()` does in
  the source.
-/

set_option linter.unusedVariables false

namespace EcomProduct


/-! ## Characters and whitespace (Go `strings.TrimSpace`) -/

/-- Go `unicode.IsSpace` on the Latin-1 range: space, `\t`, `\n`,
vertical tab, form feed, `\r`, NEL (U+0085) and NBSP (U+00A0).  The
names and error messages in the repository are plain ASCII, for which
this is exact. -/
def goIsSpace (c : Char) : Bool :=
  c = ' ' || c = '\t' || c = '\n' || c = '\x0b' || c = '\x0c' || c = '\r' ||
    c = '\u0085' || c = '\u00A0'

/-- Go `strings.TrimSpace`: drop whitespace from both ends. -/
def trimSpace (l : List Char) : List Char :=
  ((l.dropWhile goIsSpace).reverse.dropWhile goIsSpace).reverse

/-! ## Data model (`model.ProductInfo`, `model.ProductImage`) -/

/-- `model.ProductInfo` (one row of `product_productinfo`).  Field
`userId` is the `account_user_id` column / `UserID` field. -/
structure ProductInfo where
  id : Nat
  sku : List Char
  name : List Char
  price : ℚ
  weight : ℚ
  description : List Char
  stock : Int
  userId : Int
deriving DecidableEq, Repr

/-- One row of `product_productimage`.  `productId` is the
`product_productinfo_id` foreign key. -/
structure ImageRow where
  id : Nat
  imagePath : List Char
  productId : Nat
deriving DecidableEq, Repr

/-- The persistent store: the two tables plus the two SERIAL counters. -/
structure DBState where
  products : List ProductInfo
  images : List ImageRow
  nextId : Nat
  nextImageId : Nat
deriving DecidableEq, Repr

/-- `model.Product`: a product row with its image rows attached
(the `SellerInfo` part comes from the external account service and is
not part of the store). -/
structure Product where
  info : ProductInfo
  productImages : List ImageRow
deriving DecidableEq, Repr

/-- Errors surfaced by the store operations and handlers. -/
inductive StoreErr where
  /-- an injected I/O failure of the SQL statement at step `step` -/
  | ioError (step : Nat)
  /-- `sql.ErrNoRows` escaping to the caller -/
  | noRows
  /-- the finite candidate-SKU list of the model ran out (the Go loop
  draws candidates forever; this constructor only exists because the
  embedding passes the random draws as a finite list) -/
  | noCandidates
  /-- role check failed (HTTP 403) -/
  | forbidden
  /-- validation / missing-parameter failure (HTTP 400) -/
  | badRequest (msg : List Char)
deriving DecidableEq, Repr

instance exceptStoreDecEq {α : Type} [DecidableEq α] :
    DecidableEq (Except StoreErr α) := fun a b =>
  match a, b with
  | .ok x, .ok y =>
    if h : x = y then isTrue (by rw [h]) else isFalse (by simp [h])
  | .error x, .error y =>
    if h : x = y then isTrue (by rw [h]) else isFalse (by simp [h])
  | .ok _, .error _ => isFalse (by simp)
  | .error _, .ok _ => isFalse (by simp)

/-! ## Validator (`validator.IsProductInfoValid`) -/

def nameEmptyErr : List Char := "name empty/not found".data

def priceEmptyErr : List Char := "price empty/not found".data

def weightEmptyErr : List Char := "weight empty/not found".data

/-- `validator.IsProductInfoValid`: `none` means valid, `some msg`
is the error returned.  Checks are short-circuit, in source order. -/
def IsProductInfoValid (pi : ProductInfo) : Option (List Char) :=
  if trimSpace pi.name = [] then some nameEmptyErr
  else if pi.price = 0 then some priceEmptyErr
  else if pi.weight = 0 then some weightEmptyErr
  else none

/-! ## SKU generator (`utils.GetRandomSKU`) -/

/-- The `base` rune slice of `utils.GetRandomSKU`. -/
def skuBase : List Char :=
  "0123456789abcdefghijklmnopqrstuvwxyzABCDEFGHIJKLMNOPQRSTUVWXYZ".data

/-- `utils.GetRandomSKU`.  The random source is abstracted as `rnd`:
`rnd i` is the `i`-th draw of the generator; `rand.Intn (len base)`
guarantees a value in `[0, len base)`, modelled by `% skuBase.length`. -/
def GetRandomSKU (rnd : Nat → Nat) : List Char :=
  (List.range 10).map fun i => skuBase.getD (rnd i % skuBase.length) 'A'

/-! ## Theorems for claims C3, C6, C9 -/

/-- A candidate violating all three validation conditions at once. -/
def pAllBad : ProductInfo :=
  { id := 0, sku := [], name := "  ".data, price := 0, weight := 0,
    description := [], stock := 0, userId := 0 }

/-- A candidate with *negative* price that the validator accepts. -/
def pNegPrice : ProductInfo :=
  { id := 0, sku := [], name := "x".data, price := -1, weight := 1,
    description := [], stock := 0, userId := 0 }

/-- A valid candidate used to witness the amended C6. -/
def pGood : ProductInfo :=
  { id := 0, sku := [], name := "x".data, price := 2, weight := 3,
    description := [], stock := 0, userId := 0 }

/-! ## SQL `ILIKE` pattern matching

`model.GetProducts` splices the search term into the SQL text as
`name ILIKE '%term%' OR description ILIKE '%term%'`.  `likeMatch pat t`
is the Postgres `ILIKE` matching relation: `%` matches any run of
characters, `_` matches exactly one character, any other pattern
character matches case-insensitively.  (Postgres additionally treats
`\` as an escape character and a quote in the term breaks the SQL
literal itself; the statements below about substring semantics are
restricted to terms without those characters.) -/

def likeMatch : List Char → List Char → Bool
  | [], t => t.isEmpty
  | p :: ps, t =>
    if p = '%' then t.tails.any (fun s => likeMatch ps s)
    else
      match t with
      | [] => false
      | c :: ts => (p == '_' || p.toLower == c.toLower) && likeMatch ps ts

/-! ## Product store reads (`model.GetProducts`, `model.GetProductBySKU`) -/

/-- The single-quote character, which would terminate the SQL string
literal the search term is spliced into. -/
def quoteChar : Char := Char.ofNat 39

/-- The backslash character, the LIKE escape character of Postgres. -/
def backslashChar : Char := Char.ofNat 92

/-- The `'%' + search + '%'` pattern spliced into the query text. -/
def likePattern (search : List Char) : List Char := '%' :: (search ++ ['%'])

/-- The `(name ILIKE '%search%' OR description ILIKE '%search%')` clause. -/
def searchMatches (search : List Char) (r : ProductInfo) : Bool :=
  likeMatch (likePattern search) r.name ||
    likeMatch (likePattern search) r.description

/-- The WHERE clause built by `model.GetProducts`: the owner filter is
added when `filter.UserID != 0`, the search clause when `search != ""`. -/
def rowMatches (filter : ProductInfo) (search : List Char)
    (r : ProductInfo) : Bool :=
  (filter.userId == 0 || r.userId == filter.userId) &&
    (search.isEmpty || searchMatches search r)

/-- `ORDER BY id` ordering of product rows. -/
def idLe (a b : ProductInfo) : Prop := a.id ≤ b.id

instance : DecidableRel idLe := fun a b => Nat.decLe a.id b.id

instance : IsTotal ProductInfo idLe := ⟨fun a b => Nat.le_total a.id b.id⟩

instance : IsTrans ProductInfo idLe := ⟨fun _ _ _ h1 h2 => Nat.le_trans h1 h2⟩

/-- The per-row image query
`SELECT id, image_path FROM product_productimage WHERE product_productinfo_id = $1`. -/
def imagesOf (db : DBState) (pid : Nat) : List ImageRow :=
  db.images.filter fun im => im.productId == pid

def attachImages (db : DBState) (r : ProductInfo) : Product :=
  ⟨r, imagesOf db r.id⟩

/-- `model.GetProducts`: filter by owner and/or search clause, order by
id, and attach the image rows of each matching product. -/
def GetProducts (db : DBState) (filter : ProductInfo)
    (search : List Char) : List Product :=
  (List.insertionSort idLe (db.products.filter (rowMatches filter search))).map
    (attachImages db)

/-- Modelled from the spec: case-insensitive substring containment,
the reading the specification gives to the search clause. -/
def containsCI (needle hay : List Char) : Bool :=
  decide (needle.map Char.toLower <:+: hay.map Char.toLower)

/-- Modelled from the spec: the `ListProducts` row predicate in the
specification's words (owner equality and case-insensitive substring
search on name or description). -/
def specRowMatches (filter : ProductInfo) (search : List Char)
    (r : ProductInfo) : Bool :=
  (filter.userId == 0 || r.userId == filter.userId) &&
    (search.isEmpty || (containsCI search r.name || containsCI search r.description))

/-- Modelled from the spec: `ListProducts` as the specification states
it, for comparison with `GetProducts`. -/
def GetProductsSpec (db : DBState) (filter : ProductInfo)
    (search : List Char) : List Product :=
  (List.insertionSort idLe (db.products.filter (specRowMatches filter search))).map
    (attachImages db)

/-! ## Theorems for claim C2 -/

/-- The all-zero filter (`model.ProductInfo{}`). -/
def noFilter : ProductInfo :=
  { id := 0, sku := [], name := [], price := 0, weight := 0,
    description := [], stock := 0, userId := 0 }

/-- A store with a single product whose name `"ab"` contains no
underscore. -/
def exRow : ProductInfo :=
  { id := 1, sku := "s1".data, name := "ab".data, price := 1, weight := 1,
    description := [], stock := 0, userId := 1 }

def exDB : DBState := ⟨[exRow], [], 2, 1⟩

/-- The three records of the specification's worked example. -/
def rowA : ProductInfo :=
  { id := 1, sku := "sA".data, name := "PRODUCT A".data, price := 1,
    weight := 1, description := "Description PRODUCT A".data, stock := 100,
    userId := 1 }

def rowB : ProductInfo :=
  { id := 2, sku := "sB".data, name := "PRODUCT B".data, price := 1,
    weight := 1, description := "Description PRODUCT B".data, stock := 100,
    userId := 2 }

def rowC : ProductInfo :=
  { id := 3, sku := "sC".data, name := "PRODUCT B".data, price := 1,
    weight := 1, description := "Description PRODUCT B".data, stock := 100,
    userId := 1 }

def exDB3 : DBState := ⟨[rowA, rowB, rowC], [], 4, 1⟩

/-- Owner filter `UserID = 1`. -/
def ownerFilter1 : ProductInfo :=
  { id := 0, sku := [], name := [], price := 0, weight := 0,
    description := [], stock := 0, userId := 1 }

/-! ## Product store mutations

Each operation mirrors the Go control flow: `DB.Begin` is step 0, the
following SQL statements are the subsequent steps, `tx.Commit` is the
last step.  `o k = true` injects an I/O failure at step `k`.  Every
error path returns the *original* state (the deferred `tx.Rollback`);
only a successful commit publishes the transaction's writes. -/

/-- The SKU-uniqueness retry loop of `model.InsertProductInfo`:
draw a candidate, `SELECT id FROM product_productinfo WHERE sku = $1`,
accept on `sql.ErrNoRows`, retry on a hit, abort on any other error.
The infinite stream of `utils.GetRandomSKU` draws is passed as the
finite list `cands`. -/
def findSKU (o : Nat → Bool) (db : DBState) :
    List (List Char) → Nat → Except StoreErr (List Char × Nat)
  | [], _ => .error .noCandidates
  | c :: rest, k =>
    if o k then .error (.ioError k)
    else if db.products.any (fun r => r.sku == c) then findSKU o db rest (k + 1)
    else .ok (c, k + 1)

/-- `model.InsertProductInfo`: begin, find a free SKU, insert the row
(the store assigns `id := nextId` and returns id and SKU), commit. -/
def InsertProductInfo (o : Nat → Bool) (db : DBState)
    (cands : List (List Char)) (p : ProductInfo) :
    Except StoreErr ProductInfo × DBState :=
  if o 0 then (.error (.ioError 0), db)
  else
    match findSKU o db cands 1 with
    | .error e => (.error e, db)
    | .ok (s, k) =>
      if o k then (.error (.ioError k), db)
      else
        let newRow : ProductInfo := { p with id := db.nextId, sku := s }
        let tx : DBState :=
          { db with products := db.products ++ [newRow], nextId := db.nextId + 1 }
        if o (k + 1) then (.error (.ioError (k + 1)), db)
        else (.ok newRow, tx)

/-- The per-file loop of `model.InsertProductImages`: save the file to
the content store (step `k`), insert the image row (step `k+1`). -/
def insertImagesLoop (o : Nat → Bool) (pid : Nat) :
    List (List Char) → DBState → Nat → Except StoreErr (DBState × Nat)
  | [], tx, k => .ok (tx, k)
  | f :: rest, tx, k =>
    if o k then .error (.ioError k)
    else if o (k + 1) then .error (.ioError (k + 1))
    else
      insertImagesLoop o pid rest
        { tx with images := tx.images ++ [⟨tx.nextImageId, f, pid⟩],
                  nextImageId := tx.nextImageId + 1 }
        (k + 2)

/-- `model.InsertProductImages`: begin, delete all existing image rows
of the product, save and insert each new file, commit.  (Files already
written to the media folder by a failed call are not removed; the model
only tracks the database.) -/
def InsertProductImages (o : Nat → Bool) (db : DBState)
    (files : List (List Char)) (p : ProductInfo) :
    Except StoreErr Unit × DBState :=
  if o 0 then (.error (.ioError 0), db)
  else if o 1 then (.error (.ioError 1), db)
  else
    match insertImagesLoop o p.id files
        { db with images := db.images.filter (fun im => im.productId != p.id) } 2 with
    | .error e => (.error e, db)
    | .ok (tx, k) =>
      if o k then (.error (.ioError k), db)
      else (.ok (), tx)

/-- `model.UpdateProductInfoBySKU`: begin, `UPDATE ... WHERE sku = $7
RETURNING id` (every matching row gets the six new field values; zero
matching rows surface `sql.ErrNoRows` from `row.Scan`), commit.  The
returned record is the argument with the matched row's id scanned in. -/
def UpdateProductInfoBySKU (o : Nat → Bool) (db : DBState)
    (p : ProductInfo) : Except StoreErr ProductInfo × DBState :=
  if o 0 then (.error (.ioError 0), db)
  else if o 1 then (.error (.ioError 1), db)
  else
    match db.products.find? (fun r => r.sku == p.sku) with
    | none => (.error .noRows, db)
    | some r0 =>
      let tx : DBState :=
        { db with
          products := db.products.map (fun r =>
            if r.sku == p.sku then
              { r with name := p.name, price := p.price, weight := p.weight,
                       description := p.description, stock := p.stock,
                       userId := p.userId }
            else r) }
      if o 2 then (.error (.ioError 2), db)
      else (.ok { p with id := r0.id }, tx)

/-- `model.DeleteProductBySKU`: begin, `DELETE FROM product_productinfo
WHERE sku = $1` (cascade-deleting the image rows of the removed
products; zero affected rows is not an error), commit. -/
def DeleteProductBySKU (o : Nat → Bool) (db : DBState)
    (sku : List Char) : Except StoreErr Unit × DBState :=
  if o 0 then (.error (.ioError 0), db)
  else if o 1 then (.error (.ioError 1), db)
  else
    let removedIds := (db.products.filter (fun r => r.sku == sku)).map (·.id)
    let tx : DBState :=
      { db with
        products := db.products.filter (fun r => r.sku != sku),
        images := db.images.filter (fun im => !(removedIds.contains im.productId)) }
    if o 2 then (.error (.ioError 2), db)
    else (.ok (), tx)

/-- `model.GetProductBySKU`: the first row whose SKU matches, with its
image rows; `sql.ErrNoRows` if none exists. -/
def GetProductBySKU (db : DBState) (sku : List Char) :
    Except StoreErr Product :=
  match db.products.find? (fun r => r.sku == sku) with
  | none => .error .noRows
  | some r => .ok ⟨r, imagesOf db r.id⟩

/-! ## Handlers (`api.UpdateProductHandler`, `api.DecreaseStockHandler`) -/

/-- The authenticated user object attached by the authorization
middleware (`middleware.User`, the fields the handlers read). -/
structure AuthUser where
  id : Int
  role : List Char
deriving DecidableEq, Repr

/-- `api.UpdateProductHandler`: role check, validation, sku check, then
`UpdateProductInfoBySKU` with `pInfo.UserID = u.ID` and `pInfo.SKU =
sku`, then `InsertProductImages` when image files were uploaded. -/
def UpdateProductHandler (o : Nat → Bool) (db : DBState) (u : AuthUser)
    (sku : List Char) (pInfo : ProductInfo) (files : List (List Char)) :
    Except StoreErr ProductInfo × DBState :=
  if u.role != "seller".data then (.error .forbidden, db)
  else
    match IsProductInfoValid pInfo with
    | some m => (.error (.badRequest m), db)
    | none =>
      if trimSpace sku = [] then
        (.error (.badRequest "parameter sku empty/not found".data), db)
      else
        match UpdateProductInfoBySKU o db { pInfo with userId := u.id, sku := sku } with
        | (.error e, db1) => (.error e, db1)
        | (.ok p1, db1) =>
          if files.isEmpty then (.ok p1, db1)
          else
            match InsertProductImages o db1 files p1 with
            | (.error e, db2) => (.error e, db2)
            | (.ok _, db2) => (.ok p1, db2)

/-- `api.DecreaseStockHandler`: role check, sku check, fetch the product
by SKU, subtract the ordered quantity from its stock and write all
fields back through `UpdateProductInfoBySKU`. -/
def DecreaseStockHandler (o : Nat → Bool) (db : DBState) (u : AuthUser)
    (sku : List Char) (qty : Int) : Except StoreErr Unit × DBState :=
  if u.role != "seller".data then (.error .forbidden, db)
  else if trimSpace sku = [] then
    (.error (.badRequest "parameter sku empty/not found".data), db)
  else
    match GetProductBySKU db sku with
    | .error e => (.error e, db)
    | .ok p =>
      match UpdateProductInfoBySKU o db { p.info with stock := p.info.stock - qty } with
      | (.error e, db1) => (.error e, db1)
      | (.ok _, db1) => (.ok (), db1)

/-- `true` iff a handler/store result is a success. -/
def resultOk {α : Type} : Except StoreErr α → Bool
  | .ok _ => true
  | .error _ => false

/-- Number of rows carrying a given SKU. -/
def countSku (l : List ProductInfo) (s : List Char) : Nat :=
  (l.filter (fun r => r.sku == s)).length

def insDB : DBState := ⟨[], [], 1, 1⟩

def pIns : ProductInfo :=
  { id := 0, sku := [], name := "ABC Product".data, price := 5, weight := 2,
    description := "d".data, stock := 3, userId := 1 }

/-- The record and state produced by inserting `pIns` into the empty
store with candidate SKU `"abcde01234"`. -/
def insRes : ProductInfo := { pIns with id := 1, sku := "abcde01234".data }

def insDB' : DBState := ⟨[insRes], [], 2, 1⟩

/-- Oracle failing exactly at step 4 (the save of the second image). -/
def oFailAt4 : Nat → Bool := fun k => k == 4

/-- A store holding one product with one already-persisted image row. -/
def imgDB : DBState := ⟨[exRow], [⟨1, "old.jpg".data, 1⟩], 2, 2⟩

def updDB : DBState := ⟨[rowA, rowB], [], 3, 1⟩

def updArg : ProductInfo :=
  { id := 0, sku := "sA".data, name := "New".data, price := 7, weight := 8,
    description := "nd".data, stock := 9, userId := 4 }

def updRes : ProductInfo :=
  { id := 1, sku := "sA".data, name := "New".data, price := 7, weight := 8,
    description := "nd".data, stock := 9, userId := 4 }

def updDB' : DBState := ⟨[updRes, rowB], [], 3, 1⟩

/-- The seller performing the witness requests. -/
def sellerOne : AuthUser := ⟨1, "seller".data⟩

/-- A record owned by user 7, and a different seller (user 1). -/
def ownRow : ProductInfo :=
  { id := 1, sku := "sku7".data, name := "Owned".data, price := 5, weight := 5,
    description := [], stock := 10, userId := 7 }

def ownDB : DBState := ⟨[ownRow], [], 2, 1⟩

/-- The form fields of the witness update (its `user_id` field 99 is
ignored by the handler). -/
def ownForm : ProductInfo :=
  { id := 0, sku := [], name := "New name".data, price := 6, weight := 7,
    description := "nd".data, stock := 11, userId := 99 }

/-- The record returned by the witness update. -/
def ownRes : ProductInfo :=
  { id := 1, sku := "sku7".data, name := "New name".data, price := 6,
    weight := 7, description := "nd".data, stock := 11, userId := 1 }

/-! ## Helper lemmas and claim theorems -/

/-- **C3.** `IsProductInfoValid` accepts a candidate unless its name is
blank after trimming, or its price is zero, or its weight is zero; the
three conditions are checked in that order and only the first failing
one is reported (in particular a candidate violating all three gets the
name error). -/
theorem isProductInfoValid_priority (p : ProductInfo) :
    (IsProductInfoValid p = none ↔
      trimSpace p.name ≠ [] ∧ p.price ≠ 0 ∧ p.weight ≠ 0) ∧
    (trimSpace p.name = [] → IsProductInfoValid p = some nameEmptyErr) ∧
    (trimSpace p.name ≠ [] → p.price = 0 →
      IsProductInfoValid p = some priceEmptyErr) ∧
    (trimSpace p.name ≠ [] → p.price ≠ 0 → p.weight = 0 →
      IsProductInfoValid p = some weightEmptyErr) := by
  unfold IsProductInfoValid
  split_ifs with h1 h2 h3 <;> simp_all

/-- Witness for C3: on a candidate with blank name, zero price and zero
weight, only the name error is reported. -/
theorem isProductInfoValid_priority_witness :
    IsProductInfoValid pAllBad = some nameEmptyErr :=
  (isProductInfoValid_priority pAllBad).2.1 (by decide)

/-- **C6, counterexample.** The claim says every candidate accepted by
validation has a *positive* price and weight; but the validator only
rejects price/weight *equal to zero*, so a candidate with price `-1`
is accepted although its price is not positive. -/
theorem valid_not_positive_cex :
    IsProductInfoValid pNegPrice = none ∧ ¬ (0 < pNegPrice.price) := by
  constructor
  · decide
  · decide

/-- **C6, amended.** Every candidate accepted by validation has a
*non-zero* price and a *non-zero* weight (positivity is not enforced). -/
theorem valid_imp_nonzero (p : ProductInfo)
    (h : IsProductInfoValid p = none) : p.price ≠ 0 ∧ p.weight ≠ 0 := by
  unfold IsProductInfoValid at h
  split_ifs at h with h1 h2 h3
  exact ⟨h2, h3⟩

/-- Witness for the amended C6 at a concrete accepted candidate. -/
theorem valid_imp_nonzero_witness : pGood.price ≠ 0 ∧ pGood.weight ≠ 0 :=
  valid_imp_nonzero pGood (by decide)

/-- **C9.** Every generated SKU has length exactly 10 and all of its
characters come from the 62-character alphabet {0-9, a-z, A-Z}
(`skuBase` lists exactly those 62 distinct characters). -/
theorem getRandomSKU_shape (rnd : Nat → Nat) :
    (GetRandomSKU rnd).length = 10 ∧
    skuBase.length = 62 ∧ skuBase.Nodup ∧
    ∀ c ∈ GetRandomSKU rnd, c ∈ skuBase := by
  refine ⟨by simp [GetRandomSKU], by decide, by decide, ?_⟩
  intro c hc
  simp only [GetRandomSKU, List.mem_map, List.mem_range] at hc
  obtain ⟨i, -, rfl⟩ := hc
  have hlt : rnd i % skuBase.length < skuBase.length :=
    Nat.mod_lt _ (by decide)
  rw [List.getD_eq_getElem?_getD, List.getElem?_eq_getElem hlt]
  exact List.getElem_mem hlt

/-- Witness for C9 at a concrete random source. -/
theorem getRandomSKU_shape_witness :
    (GetRandomSKU (fun _ => 10)).length = 10 ∧
    'a' ∈ skuBase := by
  have h := getRandomSKU_shape (fun _ => 10)
  exact ⟨h.1, h.2.2.2 'a' (by decide)⟩

@[simp] theorem likeMatch_nil (t : List Char) :
    likeMatch [] t = t.isEmpty := by
  simp [likeMatch]

@[simp] theorem likeMatch_percent_cons (ps t) :
    likeMatch ('%' :: ps) t = t.tails.any (fun s => likeMatch ps s) := by
  simp [likeMatch]

theorem likeMatch_cons_nil {p : Char} (ps : List Char) (hp : p ≠ '%') :
    likeMatch (p :: ps) [] = false := by
  simp [likeMatch, hp]

theorem likeMatch_cons_cons {p : Char} (ps : List Char) {c : Char}
    (ts : List Char) (hp : p ≠ '%') :
    likeMatch (p :: ps) (c :: ts) =
      ((p == '_' || p.toLower == c.toLower) && likeMatch ps ts) := by
  simp [likeMatch, hp]

/-- A wildcard-free literal followed by `%` matches `b` iff some prefix
of `b` equals the literal up to case. -/
theorem likeMatch_lit_percent (s : List Char)
    (hs : ∀ c ∈ s, c ≠ '%' ∧ c ≠ '_') :
    ∀ b, likeMatch (s ++ ['%']) b = true ↔
      ∃ a, a <+: b ∧ a.map Char.toLower = s.map Char.toLower := by
  induction s with
  | nil =>
    intro b
    constructor
    · intro _
      exact ⟨[], List.nil_prefix, by simp⟩
    · intro _
      simp only [List.nil_append, likeMatch_percent_cons]
      rw [List.any_eq_true]
      exact ⟨[], (List.mem_tails _ _).mpr List.nil_suffix, by simp⟩
  | cons c s ih =>
    intro b
    have hc := hs c (List.mem_cons_self ..)
    have ihs : ∀ x ∈ s, x ≠ '%' ∧ x ≠ '_' :=
      fun x hx => hs x (List.mem_cons_of_mem _ hx)
    cases b with
    | nil =>
      rw [List.cons_append, likeMatch_cons_nil _ hc.1]
      simp
    | cons d bs =>
      rw [List.cons_append, likeMatch_cons_cons _ _ hc.1]
      constructor
      · intro h
        simp only [Bool.and_eq_true, Bool.or_eq_true, beq_iff_eq] at h
        obtain ⟨hcd | hcd, hrest⟩ := h
        · exact absurd hcd hc.2
        · obtain ⟨a, hpre, hmap⟩ := (ih ihs bs).mp hrest
          refine ⟨d :: a, ?_, ?_⟩
          · exact List.cons_prefix_cons.mpr ⟨rfl, hpre⟩
          · simp [hmap, hcd]
      · rintro ⟨a, hpre, hmap⟩
        rcases List.prefix_cons_iff.mp hpre with rfl | ⟨a', rfl, hpre'⟩
        · simp at hmap
        · simp only [List.map_cons, List.cons_eq_cons] at hmap
          simp only [Bool.and_eq_true, Bool.or_eq_true, beq_iff_eq]
          exact ⟨Or.inr hmap.1.symm, (ih ihs bs).mpr ⟨a', hpre', hmap.2⟩⟩

/-- The pattern `%s%` built from a wildcard-free term `s` matches `t`
iff `s` is a case-insensitive infix of `t`. -/
theorem likeMatch_pattern_infix (s t : List Char)
    (hs : ∀ c ∈ s, c ≠ '%' ∧ c ≠ '_') :
    likeMatch ('%' :: (s ++ ['%'])) t = true ↔
      s.map Char.toLower <:+: t.map Char.toLower := by
  rw [likeMatch_percent_cons, List.any_eq_true]
  constructor
  · rintro ⟨b, hbmem, hb⟩
    rw [List.mem_tails] at hbmem
    obtain ⟨a, hab, hmap⟩ := (likeMatch_lit_percent s hs b).mp hb
    rw [← hmap]
    exact List.infix_iff_prefix_suffix.mpr
      ⟨b.map Char.toLower, List.IsPrefix.map _ hab, List.IsSuffix.map _ hbmem⟩
  · intro h
    obtain ⟨m, hmt, hms⟩ := List.isInfix_map_iff.mp h
    obtain ⟨b, hmb, hbt⟩ := List.infix_iff_prefix_suffix.mp hmt
    exact ⟨b, (List.mem_tails _ _).mpr hbt,
      (likeMatch_lit_percent s hs b).mpr ⟨m, hmb, hms.symm⟩⟩

/-- For wildcard-free search terms the spliced ILIKE clause is exactly
the case-insensitive substring predicate of the spec. -/
theorem rowMatches_eq_spec (filter : ProductInfo) (search : List Char)
    (hsafe : ∀ c ∈ search, c ≠ '%' ∧ c ≠ '_') (r : ProductInfo) :
    rowMatches filter search r = specRowMatches filter search r := by
  have hname : likeMatch (likePattern search) r.name = containsCI search r.name := by
    rw [Bool.eq_iff_iff]
    unfold containsCI likePattern
    rw [decide_eq_true_iff]
    exact likeMatch_pattern_infix search r.name hsafe
  have hdesc : likeMatch (likePattern search) r.description =
      containsCI search r.description := by
    rw [Bool.eq_iff_iff]
    unfold containsCI likePattern
    rw [decide_eq_true_iff]
    exact likeMatch_pattern_infix search r.description hsafe
  unfold rowMatches specRowMatches searchMatches
  rw [hname, hdesc]

/-- **C2, counterexample.**  With search term `"_"` the code returns the
record named `"ab"` although `"_"` is not a substring of its name or
description: the term is spliced into the `ILIKE` pattern unescaped, so
`_` acts as a single-character wildcard, not as a literal.  The claim
"returns exactly the records whose name or description contains the term
as a substring" is false for this search term. -/
theorem getProducts_wildcard_cex :
    GetProducts exDB noFilter "_".data = [⟨exRow, []⟩] ∧
    containsCI "_".data exRow.name = false ∧
    containsCI "_".data exRow.description = false ∧
    GetProducts exDB noFilter "_".data ≠ GetProductsSpec exDB noFilter "_".data := by
  decide

/-- **C2, amended.**  For every owner filter and every search term free
of the SQL pattern/quote characters `%`, `_`, `'`, `\`, `GetProducts`
returns exactly the records selected by the spec's predicate (owner
equality if the filter is non-zero, case-insensitive substring on name
or description if the term is non-empty, everything if both are unset),
each with its image rows attached, ordered ascending by numeric id. -/
theorem getProducts_filter_search (db : DBState) (filter : ProductInfo)
    (search : List Char)
    (hs : ∀ c ∈ search, c ≠ '%' ∧ c ≠ '_' ∧ c ≠ quoteChar ∧ c ≠ backslashChar) :
    GetProducts db filter search = GetProductsSpec db filter search ∧
    (GetProducts db filter search).Pairwise
      (fun a b => a.info.id ≤ b.info.id) := by
  have hsafe : ∀ c ∈ search, c ≠ '%' ∧ c ≠ '_' :=
    fun c hc => ⟨(hs c hc).1, (hs c hc).2.1⟩
  constructor
  · unfold GetProducts GetProductsSpec
    rw [List.filter_congr (fun r _ => rowMatches_eq_spec filter search hsafe r)]
  · have hsorted : List.Pairwise idLe
        (List.insertionSort idLe (db.products.filter (rowMatches filter search))) :=
      List.sorted_insertionSort idLe _
    exact List.Pairwise.map _ (fun a b h => h) hsorted

/-- Witness for the amended C2: the spec's worked example — owner
filter 1 and search `"product b"` select exactly record C. -/
theorem getProducts_filter_search_witness :
    GetProducts exDB3 ownerFilter1 "product b".data =
      GetProductsSpec exDB3 ownerFilter1 "product b".data ∧
    (GetProducts exDB3 ownerFilter1 "product b".data).Pairwise
      (fun a b => a.info.id ≤ b.info.id) ∧
    GetProducts exDB3 ownerFilter1 "product b".data = [⟨rowC, []⟩] := by
  have h := getProducts_filter_search exDB3 ownerFilter1 ("product b".data)
    (by decide)
  exact ⟨h.1, h.2, by decide⟩

/-- A SKU accepted by the retry loop had no row in the store. -/
theorem findSKU_ok_not_present (o : Nat → Bool) (db : DBState) :
    ∀ (cands : List (List Char)) (k : Nat) (s : List Char) (k' : Nat),
      findSKU o db cands k = .ok (s, k') →
      db.products.any (fun r => r.sku == s) = false := by
  intro cands
  induction cands with
  | nil =>
    intro k s k' h
    simp [findSKU] at h
  | cons c rest ih =>
    intro k s k' h
    unfold findSKU at h
    by_cases h1 : o k = true
    · rw [if_pos h1] at h
      simp at h
    · rw [if_neg h1] at h
      by_cases h2 : db.products.any (fun r => r.sku == c) = true
      · rw [if_pos h2] at h
        exact ih (k + 1) s k' h
      · rw [if_neg h2] at h
        obtain ⟨rfl, -⟩ : c = s ∧ k + 1 = k' := by simpa using h
        simpa using h2

/-- **C1.** A successful `InsertProductInfo` returns a record with a
non-zero id and a SKU that had no row before the transaction and has
exactly one row at commit: the retry loop only accepts a candidate the
lookup does not find, and the check and the insert are inside one
transaction. -/
theorem insertProductInfo_id_sku_unique (o : Nat → Bool) (db : DBState)
    (cands : List (List Char)) (p res : ProductInfo) (db' : DBState)
    (hwf : 1 ≤ db.nextId)
    (h : InsertProductInfo o db cands p = (.ok res, db')) :
    res.id ≠ 0 ∧ countSku db.products res.sku = 0 ∧
      countSku db'.products res.sku = 1 := by
  unfold InsertProductInfo at h
  split_ifs at h with h0
  · simp at h
  cases hf : findSKU o db cands 1 with
  | error e =>
    rw [hf] at h
    simp at h
  | ok sk =>
    obtain ⟨s, k⟩ := sk
    rw [hf] at h
    simp at h
    split_ifs at h with hk hk1
    · simp at h
    · simp at h
    simp only [Prod.mk.injEq, Except.ok.injEq] at h
    obtain ⟨hres, hdb⟩ := h
    subst hres
    subst hdb
    have hnone : db.products.any (fun r => r.sku == s) = false :=
      findSKU_ok_not_present o db cands 1 s k hf
    have hnil : db.products.filter (fun r => r.sku == s) = [] := by
      rw [List.filter_eq_nil_iff]
      intro r hr
      have := List.any_eq_false.mp hnone r hr
      simpa using this
    refine ⟨by simp; omega, ?_, ?_⟩
    · simp [countSku, hnil]
    · simp [countSku, List.filter_append, hnil]

/-- Witness for C1 at a concrete failure-free insert. -/
theorem insertProductInfo_id_sku_unique_witness :
    insRes.id ≠ 0 ∧ countSku insDB.products insRes.sku = 0 ∧
      countSku insDB'.products insRes.sku = 1 :=
  insertProductInfo_id_sku_unique (fun _ => false) insDB
    ["abcde01234".data] pIns insRes insDB' (by decide) (by decide)

/-- **C4.** Every mutating store operation is atomic on failure: when it
returns an error, the state it leaves behind is exactly the state it was
called with (the transaction is rolled back, no partial write is
persisted). -/
theorem mutations_rollback_on_error :
    (∀ (o : Nat → Bool) (db : DBState) (cands : List (List Char))
        (p : ProductInfo) (e : StoreErr) (db' : DBState),
        InsertProductInfo o db cands p = (.error e, db') → db' = db) ∧
    (∀ (o : Nat → Bool) (db : DBState) (files : List (List Char))
        (p : ProductInfo) (e : StoreErr) (db' : DBState),
        InsertProductImages o db files p = (.error e, db') → db' = db) ∧
    (∀ (o : Nat → Bool) (db : DBState) (p : ProductInfo) (e : StoreErr)
        (db' : DBState),
        UpdateProductInfoBySKU o db p = (.error e, db') → db' = db) ∧
    (∀ (o : Nat → Bool) (db : DBState) (sku : List Char) (e : StoreErr)
        (db' : DBState),
        DeleteProductBySKU o db sku = (.error e, db') → db' = db) := by
  refine ⟨?_, ?_, ?_, ?_⟩
  · intro o db cands p e db' h
    unfold InsertProductInfo at h
    repeat' split at h
    all_goals simp_all
  · intro o db files p e db' h
    unfold InsertProductImages at h
    repeat' split at h
    all_goals simp_all
  · intro o db p e db' h
    unfold UpdateProductInfoBySKU at h
    repeat' split at h
    all_goals simp_all
  · intro o db sku e db' h
    unfold DeleteProductBySKU at h
    repeat' split at h
    all_goals simp_all

/-- Witness for C4: a replace-images call that fails after the first of
two files leaves the store exactly as it was (the deleted old row and
the first new row are rolled back). -/
theorem mutations_rollback_witness :
    InsertProductImages oFailAt4 imgDB ["a.jpg".data, "b.jpg".data] exRow =
      (.error (.ioError 4), imgDB) ∧ imgDB = imgDB :=
  ⟨by decide,
   mutations_rollback_on_error.2.1 oFailAt4 imgDB
     ["a.jpg".data, "b.jpg".data] exRow (.ioError 4) imgDB (by decide)⟩

/-- **C5.** A successful `UpdateProductInfoBySKU` replaces exactly the
six fields name, price, weight, description, stock, owning-user-id of
the rows matching the SKU; the id and SKU of every row are unchanged,
rows with a different SKU are untouched, and the image table and id
counter are untouched. -/
theorem updateProductInfoBySKU_frame (o : Nat → Bool) (db : DBState)
    (p res : ProductInfo) (db' : DBState)
    (h : UpdateProductInfoBySKU o db p = (.ok res, db')) :
    db'.images = db.images ∧ db'.nextId = db.nextId ∧
    db'.products.length = db.products.length ∧
    ∀ (i : Nat) (hi : i < db.products.length) (hi' : i < db'.products.length),
      (db'.products[i]).id = (db.products[i]).id ∧
      (db'.products[i]).sku = (db.products[i]).sku ∧
      ((db.products[i]).sku = p.sku →
        (db'.products[i]).name = p.name ∧
        (db'.products[i]).price = p.price ∧
        (db'.products[i]).weight = p.weight ∧
        (db'.products[i]).description = p.description ∧
        (db'.products[i]).stock = p.stock ∧
        (db'.products[i]).userId = p.userId) ∧
      ((db.products[i]).sku ≠ p.sku → db'.products[i] = db.products[i]) := by
  unfold UpdateProductInfoBySKU at h
  split_ifs at h with h0 h1 h2
  · simp at h
  · simp at h
  all_goals cases hfind : db.products.find? (fun r => r.sku == p.sku) <;>
    rw [hfind] at h <;> simp at h
  obtain ⟨-, hdb⟩ := h
  subst hdb
  refine ⟨rfl, rfl, by simp, ?_⟩
  intro i hi hi'
  simp only [List.getElem_map]
  by_cases hsk : (db.products[i]).sku = p.sku <;> simp [hsk]

/-- Witness for C5 at a concrete successful update of record A. -/
theorem updateProductInfoBySKU_frame_witness :
    updDB'.images = updDB.images ∧
    updDB'.products.length = updDB.products.length := by
  have h := updateProductInfoBySKU_frame (fun _ => false) updDB updArg
    updRes updDB' (by decide)
  exact ⟨h.1, h.2.2.1⟩

/-- **C7.** Deleting a SKU for which no record exists succeeds silently
(zero rows affected) and leaves the store unchanged. -/
theorem deleteProductBySKU_missing (o : Nat → Bool) (db : DBState)
    (sku : List Char) (ho : ∀ k, o k = false)
    (hn : ∀ r ∈ db.products, r.sku ≠ sku) :
    DeleteProductBySKU o db sku = (.ok (), db) := by
  unfold DeleteProductBySKU
  have h1 : db.products.filter (fun r => r.sku != sku) = db.products :=
    List.filter_eq_self.mpr (fun r hr => by simpa using hn r hr)
  have h2 : db.products.filter (fun r => r.sku == sku) = [] :=
    List.filter_eq_nil_iff.mpr (fun r hr => by simpa using hn r hr)
  simp [ho, h1, h2]

/-- Witness for C7: deleting the absent SKU `"zz"` from the one-product
store `exDB` returns success and the unchanged store. -/
theorem deleteProductBySKU_missing_witness :
    DeleteProductBySKU (fun _ => false) exDB "zz".data = (.ok (), exDB) :=
  deleteProductBySKU_missing (fun _ => false) exDB "zz".data
    (fun _ => rfl) (by decide)

/-- Value of `GetProductBySKU` when the lookup hits. -/
theorem getProductBySKU_ok (db : DBState) (sku : List Char)
    (r : ProductInfo)
    (hfind : db.products.find? (fun x => x.sku == sku) = some r) :
    GetProductBySKU db sku = .ok ⟨r, imagesOf db r.id⟩ := by
  unfold GetProductBySKU
  rw [hfind]

/-- Value of `UpdateProductInfoBySKU` on a failure-free run when the
SKU matches row `r0`. -/
theorem updateProductInfoBySKU_ok (o : Nat → Bool) (db : DBState)
    (p r0 : ProductInfo) (ho : ∀ k, o k = false)
    (hfind : db.products.find? (fun x => x.sku == p.sku) = some r0) :
    UpdateProductInfoBySKU o db p =
      (.ok { p with id := r0.id },
       { db with products := db.products.map (fun x =>
           if x.sku == p.sku then
             { x with name := p.name, price := p.price, weight := p.weight,
                      description := p.description, stock := p.stock,
                      userId := p.userId }
           else x) }) := by
  unfold UpdateProductInfoBySKU
  rw [hfind]
  simp [ho]

/-- Under the unique-SKU invariant, `find?` returns the one row with
the given SKU, and every row carrying that SKU is that row. -/
theorem find_sku_unique {db : DBState} {r : ProductInfo} {sku : List Char}
    (huniq : db.products.Pairwise (fun a b => a.sku ≠ b.sku))
    (hr : r ∈ db.products) (hsk : r.sku = sku) :
    db.products.find? (fun x => x.sku == sku) = some r ∧
    ∀ x ∈ db.products, x.sku = sku → x = r := by
  have hsymm : Symmetric (fun a b : ProductInfo => a.sku ≠ b.sku) :=
    fun a b hab hba => hab hba.symm
  have hall : ∀ x ∈ db.products, x.sku = sku → x = r := by
    intro x hx hxsku
    by_contra hne
    exact (List.Pairwise.forall hsymm huniq) hx hr hne (hsk ▸ hxsku)
  have hsome : (db.products.find? (fun x => x.sku == sku)).isSome :=
    List.find?_isSome.mpr ⟨r, hr, by simp [hsk]⟩
  obtain ⟨r', hr'⟩ := Option.isSome_iff_exists.mp hsome
  have hmem := List.mem_of_find?_eq_some hr'
  have hpred := List.find?_some hr'
  have hrr : r' = r := hall r' hmem (by simpa using hpred)
  exact ⟨hrr ▸ hr', hall⟩

/-- **C8.** A seller's decrease-stock request on an existing SKU with
quantity `qty` stores exactly the previous stock minus `qty` for that
record (all other fields and records via the identity part of the map),
succeeds, and when `qty` exceeds the current stock the stored value is
negative — no floor is enforced and no error is signalled. -/
theorem decreaseStock_subtracts (o : Nat → Bool) (db : DBState)
    (u : AuthUser) (sku : List Char) (qty : Int) (r : ProductInfo)
    (ho : ∀ k, o k = false)
    (hrole : u.role = "seller".data)
    (hsku : trimSpace sku ≠ [])
    (huniq : db.products.Pairwise (fun a b => a.sku ≠ b.sku))
    (hr : r ∈ db.products) (hsk : r.sku = sku) :
    (DecreaseStockHandler o db u sku qty).1 = .ok () ∧
    (DecreaseStockHandler o db u sku qty).2.products =
      db.products.map (fun x =>
        if x.sku = sku then { x with stock := x.stock - qty } else x) ∧
    (r.stock < qty → r.stock - qty < 0) := by
  obtain ⟨hfind, hall⟩ := find_sku_unique huniq hr hsk
  have hbne : (u.role != "seller".data) = false := by
    rw [hrole]
    simp
  have hmap : db.products.map (fun x =>
        if x.sku == r.sku then
          { x with name := r.name, price := r.price, weight := r.weight,
                   description := r.description, stock := r.stock - qty,
                   userId := r.userId }
        else x) =
      db.products.map (fun x =>
        if x.sku = sku then { x with stock := x.stock - qty } else x) := by
    apply List.map_congr_left
    intro x hx
    by_cases hxs : x.sku = sku
    · have hxr : x = r := hall x hx hxs
      subst hxr
      simp [hsk]
    · have : (x.sku == r.sku) = false := by
        simp [hsk]
        exact hxs
      simp [this, hxs]
  have hget : GetProductBySKU db sku = .ok ⟨r, imagesOf db r.id⟩ :=
    getProductBySKU_ok db sku r hfind
  have hupd := updateProductInfoBySKU_ok o db
    ({ r with stock := r.stock - qty }) r ho
    (by show db.products.find? (fun x => x.sku == r.sku) = some r
        rw [hsk]
        exact hfind)
  have hrneg : ¬((u.role != "seller".data) = true) := by simp [hrole]
  have hrun : DecreaseStockHandler o db u sku qty =
      (.ok (), { db with products := db.products.map (fun x =>
        if x.sku == r.sku then
          { x with name := r.name, price := r.price, weight := r.weight,
                   description := r.description, stock := r.stock - qty,
                   userId := r.userId }
        else x) }) := by
    unfold DecreaseStockHandler
    rw [if_neg hrneg, if_neg hsku, hget]
    show (match UpdateProductInfoBySKU o db
        { r with stock := r.stock - qty } with
      | (.error e, db1) => (Except.error e, db1)
      | (.ok _, db1) => (Except.ok (), db1)) = _
    rw [hupd]
  refine ⟨?_, ?_, fun hlt => by omega⟩
  · rw [hrun]
  · rw [hrun]
    exact hmap

/-- Witness for C8: decreasing record C's stock (100) by 150 succeeds
and the stored stock goes negative. -/
theorem decreaseStock_subtracts_witness :
    (DecreaseStockHandler (fun _ => false) exDB3 sellerOne "sC".data 150).1 =
      .ok () ∧ rowC.stock - 150 < 0 := by
  have h := decreaseStock_subtracts (fun _ => false) exDB3 sellerOne
    "sC".data 150 rowC (fun _ => rfl) rfl (by decide) (by decide)
    (by decide) (by decide)
  exact ⟨h.1, h.2.2 (by decide)⟩

/-- A successful run of the image-insert loop only appends image rows:
the product table and its id counter are untouched. -/
theorem insertImagesLoop_products (o : Nat → Bool) (pid : Nat) :
    ∀ (files : List (List Char)) (tx : DBState) (k : Nat)
      (tx' : DBState) (k' : Nat),
      insertImagesLoop o pid files tx k = .ok (tx', k') →
      tx'.products = tx.products ∧ tx'.nextId = tx.nextId := by
  intro files
  induction files with
  | nil =>
    intro tx k tx' k' h
    obtain ⟨rfl, -⟩ : tx = tx' ∧ k = k' := by simpa [insertImagesLoop] using h
    exact ⟨rfl, rfl⟩
  | cons f rest ih =>
    intro tx k tx' k' h
    unfold insertImagesLoop at h
    by_cases h1 : o k = true
    · rw [if_pos h1] at h
      simp at h
    · rw [if_neg h1] at h
      by_cases h2 : o (k + 1) = true
      · rw [if_pos h2] at h
        simp at h
      · rw [if_neg h2] at h
        simpa using ih _ _ _ _ h

/-- With a failure-free oracle the image-insert loop succeeds. -/
theorem insertImagesLoop_ok (o : Nat → Bool) (pid : Nat)
    (ho : ∀ k, o k = false) :
    ∀ (files : List (List Char)) (tx : DBState) (k : Nat),
      ∃ tx' k', insertImagesLoop o pid files tx k = .ok (tx', k') := by
  intro files
  induction files with
  | nil =>
    intro tx k
    exact ⟨tx, k, rfl⟩
  | cons f rest ih =>
    intro tx k
    unfold insertImagesLoop
    rw [if_neg (by simp [ho]), if_neg (by simp [ho])]
    exact ih _ _

/-- With a failure-free oracle `InsertProductImages` succeeds and only
changes the image table. -/
theorem insertProductImages_ok (o : Nat → Bool) (db : DBState)
    (files : List (List Char)) (p : ProductInfo)
    (ho : ∀ k, o k = false) :
    ∃ db2, InsertProductImages o db files p = (.ok (), db2) ∧
      db2.products = db.products ∧ db2.nextId = db.nextId := by
  unfold InsertProductImages
  rw [if_neg (by simp [ho]), if_neg (by simp [ho])]
  obtain ⟨tx', k', hloop⟩ := insertImagesLoop_ok o p.id ho files
    { db with images := db.images.filter (fun im => im.productId != p.id) } 2
  rw [hloop]
  obtain ⟨hprod, hnext⟩ := insertImagesLoop_products o p.id files _ _ _ _ hloop
  exact ⟨tx', by simp [ho], by simpa using hprod, by simpa using hnext⟩

/-- **C10.** A successful `PUT /api/product/` by any authenticated
seller on an existing SKU writes the caller's user id into the record's
owning-user-id, overwriting whatever owner it had: the theorem needs no
hypothesis relating the caller to the record's previous owner, because
the handler performs no ownership check. -/
theorem updateProductHandler_reassigns_owner (o : Nat → Bool)
    (db : DBState) (u : AuthUser) (sku : List Char) (pInfo : ProductInfo)
    (files : List (List Char)) (r : ProductInfo)
    (ho : ∀ k, o k = false)
    (hrole : u.role = "seller".data)
    (hvalid : IsProductInfoValid pInfo = none)
    (hsku : trimSpace sku ≠ [])
    (hr : r ∈ db.products) (hsk : r.sku = sku) :
    resultOk (UpdateProductHandler o db u sku pInfo files).1 = true ∧
    (∀ p1, (UpdateProductHandler o db u sku pInfo files).1 = .ok p1 →
        p1.userId = u.id) ∧
    (UpdateProductHandler o db u sku pInfo files).2.products =
      db.products.map (fun x =>
        if x.sku = sku then
          { x with name := pInfo.name, price := pInfo.price,
                   weight := pInfo.weight, description := pInfo.description,
                   stock := pInfo.stock, userId := u.id }
        else x) := by
  have hsome : (db.products.find? (fun x => x.sku == sku)).isSome :=
    List.find?_isSome.mpr ⟨r, hr, by simp [hsk]⟩
  obtain ⟨r0, hfind⟩ := Option.isSome_iff_exists.mp hsome
  have hupd := updateProductInfoBySKU_ok o db
    ({ pInfo with userId := u.id, sku := sku }) r0 ho hfind
  have hrneg : ¬((u.role != "seller".data) = true) := by simp [hrole]
  have hmap : db.products.map (fun x =>
        if x.sku == sku then
          { x with name := pInfo.name, price := pInfo.price,
                   weight := pInfo.weight, description := pInfo.description,
                   stock := pInfo.stock, userId := u.id }
        else x) =
      db.products.map (fun x =>
        if x.sku = sku then
          { x with name := pInfo.name, price := pInfo.price,
                   weight := pInfo.weight, description := pInfo.description,
                   stock := pInfo.stock, userId := u.id }
        else x) := by
    apply List.map_congr_left
    intro x hx
    by_cases hxs : x.sku = sku <;> simp [hxs]
  have hbody : UpdateProductHandler o db u sku pInfo files =
      (if files.isEmpty then
        (.ok { pInfo with userId := u.id, sku := sku, id := r0.id },
         { db with products := db.products.map (fun x =>
             if x.sku == sku then
               { x with name := pInfo.name, price := pInfo.price,
                        weight := pInfo.weight,
                        description := pInfo.description,
                        stock := pInfo.stock, userId := u.id }
             else x) })
      else
        match InsertProductImages o
            { db with products := db.products.map (fun x =>
                if x.sku == sku then
                  { x with name := pInfo.name, price := pInfo.price,
                           weight := pInfo.weight,
                           description := pInfo.description,
                           stock := pInfo.stock, userId := u.id }
                else x) } files
            { pInfo with userId := u.id, sku := sku, id := r0.id } with
        | (.error e, db2) => (.error e, db2)
        | (.ok _, db2) =>
          (.ok { pInfo with userId := u.id, sku := sku, id := r0.id }, db2)) := by
    unfold UpdateProductHandler
    rw [if_neg hrneg, hvalid]
    show (if trimSpace sku = [] then _ else _) = _
    rw [if_neg hsku, hupd]
  by_cases hfiles : files.isEmpty
  · rw [hbody, if_pos hfiles]
    refine ⟨rfl, ?_, hmap⟩
    intro p1 hp1
    simp only [Except.ok.injEq] at hp1
    rw [← hp1]
  · rw [hbody, if_neg hfiles]
    obtain ⟨db2, himg, hprod, -⟩ := insertProductImages_ok o _ files _ ho
    rw [himg]
    refine ⟨rfl, ?_, ?_⟩
    · intro p1 hp1
      simp only [Except.ok.injEq] at hp1
      rw [← hp1]
    · rw [hprod]
      exact hmap

/-- Witness for C10: seller 1 updates a record owned by user 7; the
update succeeds and the returned record is owned by seller 1. -/
theorem updateProductHandler_reassigns_owner_witness :
    resultOk (UpdateProductHandler (fun _ => false) ownDB sellerOne
      "sku7".data ownForm []).1 = true ∧
    ownRes.userId = sellerOne.id := by
  have h := updateProductHandler_reassigns_owner (fun _ => false) ownDB
    sellerOne "sku7".data ownForm [] ownRow (fun _ => rfl) rfl (by decide)
    (by decide) (by decide) (by decide)
  exact ⟨h.1, h.2.1 ownRes (by decide)⟩


end EcomProduct
